import Mathlib

/-!
Verification of the delivery-analysis pipeline of the cricket Hawk-Eye
analyzer (components/VideoAnalyzer.tsx).  The numeric model idealizes
JavaScript numbers as real numbers; JS Math.round and Math.floor are
modelled explicitly, Math.sqrt is Real.sqrt, Math.atan2 is a piecewise
arctangent.
-/

namespace HawkEye

/-- JS Math.round: round half toward positive infinity. -/
noncomputable def jsRound (x : ℝ) : ℤ := ⌊x + 1 / 2⌋

/-- JS Math.floor of a nonnegative quantity, as a natural number. -/
noncomputable def jsFloorNat (x : ℝ) : ℕ := (⌊x⌋).toNat

/-- JS Math.atan2 y x (signed-zero behaviour aside). -/
noncomputable def atan2 (y x : ℝ) : ℝ :=
  if 0 < x then Real.arctan (y / x)
  else if x < 0 then
    (if 0 ≤ y then Real.arctan (y / x) + Real.pi
     else Real.arctan (y / x) - Real.pi)
  else if 0 < y then Real.pi / 2
  else if y < 0 then -(Real.pi / 2)
  else 0

/-- A pose keypoint: named landmark with optional pixel coordinates and
confidence score (the code checks x == null / y == null). -/
structure Keypoint where
  name : String
  x : Option ℝ
  y : Option ℝ
  score : Option ℝ

/-- The six delivery phases. -/
inductive FramePhase where
  | runUp
  | loadUp
  | release
  | pitch
  | impact
  | followThrough
deriving DecidableEq

/-- Per-frame snapshot (interface FrameSnapshot). -/
structure FrameSnapshot where
  time : ℝ
  phase : FramePhase
  ballPosition : ℝ × ℝ × ℝ
  seamAngle : ℝ
  speedKph : ℝ
  releaseHeight : ℝ
  keypoints : List Keypoint

/-- The three key-moment frame indices. -/
structure KeyMoments where
  releaseFrame : ℕ
  pitchFrame : ℕ
  impactFrame : ℕ
deriving DecidableEq

/-- The five telemetry scalars. -/
structure Summary where
  releaseSpeedKph : ℝ
  seamAngle : ℝ
  releaseHeight : ℝ
  predictedImpactMeters : ℝ
  runupVelocityKph : ℝ

/-- The final aggregate (interface AnalysisResult). -/
structure AnalysisResult where
  frames : List FrameSnapshot
  trajectory : List (ℝ × ℝ × ℝ)
  keyMoments : KeyMoments
  summary : Summary

def PITCH_LENGTH_METERS : ℝ := 20.12

def SEAM_SMOOTHING : ℝ := 0.25

def rightWristName : String := "right_wrist"

def leftWristName : String := "left_wrist"

def rightElbowName : String := "right_elbow"

def leftElbowName : String := "left_elbow"

/-- keypoints.find(kp => kp.name === name). -/
def findKp (name : String) (kps : List Keypoint) : Option Keypoint :=
  kps.find? fun kp => kp.name = name

/-- Wrist selection of mapKeypointsToBallPosition:
right_wrist ?? left_wrist ?? keypoints[0]. -/
def mapWrist (kps : List Keypoint) : Option Keypoint :=
  ((findKp rightWristName kps).orElse fun _ =>
    findKp leftWristName kps).orElse fun _ => kps.head?

/-- mapKeypointsToBallPosition (VideoAnalyzer.tsx lines 59-80). -/
noncomputable def mapKeypointsToBallPosition (width height : ℝ)
    (keypoints : List Keypoint) : ℝ × ℝ × ℝ :=
  match mapWrist keypoints with
  | none => (0, 1.2, 0)
  | some wrist =>
    let normalizedX := (wrist.x.getD (width / 2)) / width - 0.5
    let normalizedY := 1 - (wrist.y.getD (height * 0.6)) / height
    (normalizedX * 3.6, max 0.4 (normalizedY * 2.6), 0)

/-- Wrist selection of computeSeamAngle: right_wrist ?? left_wrist. -/
def seamWrist (kps : List Keypoint) : Option Keypoint :=
  (findKp rightWristName kps).orElse fun _ => findKp leftWristName kps

/-- Elbow selection of computeSeamAngle: right_elbow ?? left_elbow. -/
def seamElbow (kps : List Keypoint) : Option Keypoint :=
  (findKp rightElbowName kps).orElse fun _ => findKp leftElbowName kps

/-- computeSeamAngle (VideoAnalyzer.tsx lines 82-105): the guard mirrors
!wrist || !elbow || wrist.x == null || wrist.y == null || elbow.x == null
|| elbow.y == null, and the angle uses (wrist.x ?? 0) - (elbow.x ?? 0)
and (wrist.y ?? 0) - (elbow.y ?? 0). -/
noncomputable def computeSeamAngle (keypoints : List Keypoint) : ℝ :=
  if (seamWrist keypoints).isNone || (seamElbow keypoints).isNone ||
      ((seamWrist keypoints).bind Keypoint.x).isNone ||
      ((seamWrist keypoints).bind Keypoint.y).isNone ||
      ((seamElbow keypoints).bind Keypoint.x).isNone ||
      ((seamElbow keypoints).bind Keypoint.y).isNone then 12
  else
    let dx := ((seamWrist keypoints).bind Keypoint.x).getD 0 -
      ((seamElbow keypoints).bind Keypoint.x).getD 0
    let dy := ((seamWrist keypoints).bind Keypoint.y).getD 0 -
      ((seamElbow keypoints).bind Keypoint.y).getD 0
    let angle := atan2 dy dx * 180 / Real.pi
    (jsRound (angle * 10) : ℝ) / 10

/-- Inner loop of smoothSeries: prev is output[idx-1]. -/
noncomputable def smoothFrom (factor prev : ℝ) : List ℝ → List ℝ
  | [] => []
  | value :: rest =>
    (prev * (1 - factor) + value * factor) ::
      smoothFrom factor (prev * (1 - factor) + value * factor) rest

/-- smoothSeries (VideoAnalyzer.tsx lines 107-117): output[0] = input[0],
output[i] = output[i-1]*(1-factor) + input[i]*factor. -/
noncomputable def smoothSeries (factor : ℝ) : List ℝ → List ℝ
  | [] => []
  | value :: rest => value :: smoothFrom factor value rest

def dummyFrame : FrameSnapshot :=
  { time := 0
    phase := FramePhase.runUp
    ballPosition := (0, 0, 0)
    seamAngle := 0
    speedKph := 0
    releaseHeight := 0
    keypoints := [] }

/-- Depth assigned to frame idx of n frames:
progress = idx / max(n-1, 1); depth = progress * PITCH_LENGTH_METERS. -/
noncomputable def depthAt (n idx : ℕ) : ℝ :=
  ((idx : ℝ) / ((max (n - 1) 1 : ℕ) : ℝ)) * PITCH_LENGTH_METERS

/-- positions[idx] (VideoAnalyzer.tsx lines 195-203): keep the lateral and
vertical components of the raw ball position, assign the depth. -/
noncomputable def positionAt (frames : List FrameSnapshot) (idx : ℕ) :
    ℝ × ℝ × ℝ :=
  ((frames.getD idx dummyFrame).ballPosition.1,
    (frames.getD idx dummyFrame).ballPosition.2.1,
    depthAt frames.length idx)

/-- The assigned-depth position list (trajectory). -/
noncomputable def depthPositions (frames : List FrameSnapshot) :
    List (ℝ × ℝ × ℝ) :=
  (List.range frames.length).map (positionAt frames)

/-- speeds[idx] (VideoAnalyzer.tsx lines 205-215): 0 at idx 0, else the
Euclidean displacement between consecutive assigned positions over the
elapsed time (0.016 when the timestamp difference is zero), times 3.6,
rounded. -/
noncomputable def speedAt (frames : List FrameSnapshot) (idx : ℕ) : ℝ :=
  if idx = 0 then 0
  else
    (jsRound (Real.sqrt
      (((positionAt frames idx).1 - (positionAt frames (idx - 1)).1) *
        ((positionAt frames idx).1 - (positionAt frames (idx - 1)).1) +
       ((positionAt frames idx).2.1 - (positionAt frames (idx - 1)).2.1) *
        ((positionAt frames idx).2.1 - (positionAt frames (idx - 1)).2.1) +
       ((positionAt frames idx).2.2 - (positionAt frames (idx - 1)).2.2) *
        ((positionAt frames idx).2.2 - (positionAt frames (idx - 1)).2.2)) /
      (if (frames.getD idx dummyFrame).time -
          (frames.getD (idx - 1) dummyFrame).time = 0 then 0.016
        else (frames.getD idx dummyFrame).time -
          (frames.getD (idx - 1) dummyFrame).time) * 3.6) : ℝ)

/-- The raw speed list. -/
noncomputable def rawSpeeds (frames : List FrameSnapshot) : List ℝ :=
  (List.range frames.length).map (speedAt frames)

/-- Release-frame scan (VideoAnalyzer.tsx lines 223-227): fold over all
indices, seeded with floor(length * 0.4), moving to idx whenever the value
at idx strictly exceeds the value at the current accumulator. -/
noncomputable def releaseScan (s : List ℝ) : ℕ :=
  (List.range s.length).foldl
    (fun acc idx => if s.getD idx 0 > s.getD acc 0 then idx else acc)
    (jsFloorNat ((s.length : ℝ) * 0.4))

/-- Phase label of frame idx (VideoAnalyzer.tsx lines 232-239). -/
noncomputable def phaseAt (releaseFrame pitchFrame impactFrame idx : ℕ) :
    FramePhase :=
  if (idx : ℝ) < (releaseFrame : ℝ) * 0.5 then FramePhase.runUp
  else if idx < releaseFrame then FramePhase.loadUp
  else if idx = releaseFrame then FramePhase.release
  else if idx ≤ pitchFrame then FramePhase.pitch
  else if idx ≤ impactFrame then FramePhase.impact
  else FramePhase.followThrough

/-- The fixed fallback snapshot produced for empty input
(VideoAnalyzer.tsx lines 168-176). -/
def fallbackFrame : FrameSnapshot :=
  { time := 0
    phase := FramePhase.runUp
    ballPosition := (0, 1.5, 0)
    seamAngle := 15
    speedKph := 115
    releaseHeight := 1.86
    keypoints := [] }

/-- The fixed fallback result for empty input
(VideoAnalyzer.tsx lines 177-192). -/
def fallbackResult : AnalysisResult :=
  { frames := [fallbackFrame]
    trajectory := [(0, 1.5, 0)]
    keyMoments := { releaseFrame := 0, pitchFrame := 0, impactFrame := 0 }
    summary :=
      { releaseSpeedKph := 115
        seamAngle := 15
        releaseHeight := 1.86
        predictedImpactMeters := 5.4
        runupVelocityKph := 24 } }

/-- smoothedSpeeds = smoothSeries(speeds) with the default factor 0.35. -/
noncomputable def smoothedSpeedsOf (frames : List FrameSnapshot) : List ℝ :=
  smoothSeries 0.35 (rawSpeeds frames)

/-- seamAngles = smoothSeries(raw seam angles, SEAM_SMOOTHING). -/
noncomputable def seamAnglesOf (frames : List FrameSnapshot) : List ℝ :=
  smoothSeries SEAM_SMOOTHING (frames.map fun frame => frame.seamAngle)

/-- releaseFrame (VideoAnalyzer.tsx lines 223-227). -/
noncomputable def releaseFrameOf (frames : List FrameSnapshot) : ℕ :=
  releaseScan (smoothedSpeedsOf frames)

/-- pitchFrame = min(N-1, releaseFrame + floor(N*0.25)) (line 229). -/
noncomputable def pitchFrameOf (frames : List FrameSnapshot) : ℕ :=
  min (frames.length - 1)
    (releaseFrameOf frames + jsFloorNat ((frames.length : ℝ) * 0.25))

/-- impactFrame = min(N-1, pitchFrame + floor(N*0.2)) (line 230). -/
noncomputable def impactFrameOf (frames : List FrameSnapshot) : ℕ :=
  min (frames.length - 1)
    (pitchFrameOf frames + jsFloorNat ((frames.length : ℝ) * 0.2))

/-- enrichedFrames (VideoAnalyzer.tsx lines 241-248). -/
noncomputable def enrichedFramesOf (frames : List FrameSnapshot) :
    List FrameSnapshot :=
  (List.range frames.length).map fun idx =>
    let frame := frames.getD idx dummyFrame
    { frame with
        phase := phaseAt (releaseFrameOf frames) (pitchFrameOf frames)
          (impactFrameOf frames) idx
        ballPosition := (depthPositions frames).getD idx (0, 0, 0)
        seamAngle := (seamAnglesOf frames).getD idx 0
        speedKph := (smoothedSpeedsOf frames).getD idx 0
        releaseHeight := frame.ballPosition.2.1 }

/-- The summary of the non-empty branch (VideoAnalyzer.tsx lines 250-271). -/
noncomputable def summaryOf (frames : List FrameSnapshot) : Summary :=
  { releaseSpeedKph :=
      if (smoothedSpeedsOf frames).getD (releaseFrameOf frames) 0 = 0 then 122
      else (smoothedSpeedsOf frames).getD (releaseFrameOf frames) 0
    seamAngle :=
      if (seamAnglesOf frames).getD (releaseFrameOf frames) 0 = 0 then 14
      else (seamAnglesOf frames).getD (releaseFrameOf frames) 0
    releaseHeight :=
      match (enrichedFramesOf frames)[releaseFrameOf frames]? with
      | some frame => frame.releaseHeight
      | none => 1.85
    predictedImpactMeters :=
      max 0 (PITCH_LENGTH_METERS -
        ((depthPositions frames).getD (impactFrameOf frames) (0, 0, 0)).2.2)
    runupVelocityKph :=
      if (smoothedSpeedsOf frames).getD
          (jsFloorNat ((releaseFrameOf frames : ℝ) * 0.5)) 0 = 0 then 22
      else (smoothedSpeedsOf frames).getD
        (jsFloorNat ((releaseFrameOf frames : ℝ) * 0.5)) 0 }

/-- enrichFrames (VideoAnalyzer.tsx lines 166-273). -/
noncomputable def enrichFrames (frames : List FrameSnapshot) :
    AnalysisResult :=
  if frames.length = 0 then fallbackResult
  else
    { frames := enrichedFramesOf frames
      trajectory := depthPositions frames
      keyMoments :=
        { releaseFrame := releaseFrameOf frames
          pitchFrame := pitchFrameOf frames
          impactFrame := impactFrameOf frames }
      summary := summaryOf frames }

/-! Section: Concrete test inputs -/

/-- A keypoint with no numeric data at all. -/
def mysteryKp : Keypoint :=
  { name := "nose", x := none, y := none, score := none }

/-- One frame of the uniform test input: constant ball position. -/
def uniformFrame (t : ℝ) : FrameSnapshot :=
  { time := t
    phase := FramePhase.runUp
    ballPosition := (0.5, 1.8, 0)
    seamAngle := 0
    speedKph := 0
    releaseHeight := 1.8
    keypoints := [] }

/-- Ten frames with identical wrist-derived positions and strictly
increasing timestamps 0.0 s .. 0.9 s. -/
noncomputable def uniformFrames : List FrameSnapshot :=
  (List.range 10).map fun i : ℕ => uniformFrame ((i : ℝ) / 10)

/-- Five frames with identical raw ball positions whose second frame
arrives only 0.01 s after the first, while the rest are 1 s apart. -/
noncomputable def earlyBurstFrames : List FrameSnapshot :=
  [uniformFrame 0, uniformFrame 0.01, uniformFrame 1.01, uniformFrame 2.01,
    uniformFrame 3.01]

/-! Section: Basic lemmas -/

lemma smoothFrom_length (factor prev : ℝ) (l : List ℝ) :
    (smoothFrom factor prev l).length = l.length := by
  induction l generalizing prev with
  | nil => rfl
  | cons v rest ih => simp [smoothFrom, ih]

lemma smoothSeries_length (factor : ℝ) (l : List ℝ) :
    (smoothSeries factor l).length = l.length := by
  cases l with
  | nil => rfl
  | cons v rest => simp [smoothSeries, smoothFrom_length]

lemma smoothFrom_one (prev : ℝ) (l : List ℝ) : smoothFrom 1 prev l = l := by
  induction l generalizing prev with
  | nil => rfl
  | cons v rest ih =>
    have h : prev * (1 - 1) + v * 1 = v := by ring
    simp only [smoothFrom, h, ih]

lemma smoothFrom_getD (factor : ℝ) (rest : List ℝ) :
    ∀ (prev : ℝ) (i : ℕ), i < rest.length →
      (prev :: smoothFrom factor prev rest).getD (i + 1) 0 =
        (prev :: smoothFrom factor prev rest).getD i 0 * (1 - factor) +
          rest.getD i 0 * factor := by
  induction rest with
  | nil => intro prev i h; simp at h
  | cons v rest ih =>
    intro prev i h
    cases i with
    | zero => simp [smoothFrom]
    | succ j =>
      have hj : j < rest.length := by simpa using h
      have := ih (prev * (1 - factor) + v * factor) j hj
      simpa [smoothFrom] using this

/-! Section: C6: Series Smoother -/

/-- Claim C6: the Series Smoother with factor 1 is the identity; it maps the empty
sequence to the empty sequence; it preserves length; its first output equals
the first input; and each later output obeys
output[i] = output[i-1]*(1-factor) + input[i]*factor. -/
theorem smoothSeries_spec :
    (∀ l : List ℝ, smoothSeries 1 l = l) ∧
    (∀ factor : ℝ, smoothSeries factor ([] : List ℝ) = []) ∧
    (∀ (factor : ℝ) (l : List ℝ),
      (smoothSeries factor l).length = l.length) ∧
    (∀ (factor : ℝ) (l : List ℝ), l ≠ [] →
      (smoothSeries factor l).getD 0 0 = l.getD 0 0) ∧
    (∀ (factor : ℝ) (l : List ℝ) (i : ℕ), i + 1 < l.length →
      (smoothSeries factor l).getD (i + 1) 0 =
        (smoothSeries factor l).getD i 0 * (1 - factor) +
          l.getD (i + 1) 0 * factor) := by
  refine ⟨?_, ?_, smoothSeries_length, ?_, ?_⟩
  · intro l
    cases l with
    | nil => rfl
    | cons v rest => simp [smoothSeries, smoothFrom_one]
  · intro factor; rfl
  · intro factor l h
    cases l with
    | nil => exact absurd rfl h
    | cons v rest => rfl
  · intro factor l i h
    cases l with
    | nil => simp at h
    | cons v rest =>
      have hi : i < rest.length := by simpa using h
      have := smoothFrom_getD factor rest v i hi
      simpa [smoothSeries] using this

/-- Witness for C6 at concrete inputs. -/
theorem smoothSeries_spec_witness :
    smoothSeries 1 [(3 : ℝ)] = [3] ∧
    (smoothSeries (1 / 2) [(2 : ℝ), 4]).getD 1 0 =
      (smoothSeries (1 / 2) [(2 : ℝ), 4]).getD 0 0 * (1 - 1 / 2) +
        ([(2 : ℝ), 4].getD 1 0) * (1 / 2) :=
  ⟨smoothSeries_spec.1 [3],
    smoothSeries_spec.2.2.2.2 (1 / 2) [2, 4] 0 (by norm_num)⟩

lemma depthPositions_length (frames : List FrameSnapshot) :
    (depthPositions frames).length = frames.length := by
  simp [depthPositions]

lemma rawSpeeds_length (frames : List FrameSnapshot) :
    (rawSpeeds frames).length = frames.length := by
  simp [rawSpeeds]

lemma smoothedSpeedsOf_length (frames : List FrameSnapshot) :
    (smoothedSpeedsOf frames).length = frames.length := by
  rw [smoothedSpeedsOf, smoothSeries_length, rawSpeeds_length]

lemma enrichedFramesOf_length (frames : List FrameSnapshot) :
    (enrichedFramesOf frames).length = frames.length := by
  simp [enrichedFramesOf]

lemma jsFloorNat_mul_lt (n : ℕ) (c : ℝ) (hn : 0 < n) (_hc0 : 0 ≤ c)
    (hc1 : c < 1) : jsFloorNat ((n : ℝ) * c) < n := by
  have hnr : (0 : ℝ) < (n : ℝ) := by exact_mod_cast hn
  have h1 : (n : ℝ) * c < (n : ℝ) := by nlinarith
  have h2 : ⌊(n : ℝ) * c⌋ < (n : ℤ) := by
    rw [Int.floor_lt]
    exact_mod_cast h1
  rw [jsFloorNat]
  omega

lemma foldl_sel_lt (n : ℕ) (g : ℕ → ℕ → ℕ)
    (hg : ∀ a b, g a b = a ∨ g a b = b) :
    ∀ l : List ℕ, (∀ x ∈ l, x < n) → ∀ a, a < n → l.foldl g a < n := by
  intro l
  induction l with
  | nil => intro _ a ha; simpa using ha
  | cons x xs ih =>
    intro hl a ha
    have hx : x < n := hl x (by simp)
    have hxs : ∀ y ∈ xs, y < n := fun y hy => hl y (by simp [hy])
    have hga : g a x < n := by
      rcases hg a x with h | h <;> rw [h] <;> assumption
    exact ih hxs (g a x) hga

lemma releaseScan_lt (s : List ℝ) (h : s ≠ []) : releaseScan s < s.length := by
  have hn : 0 < s.length := List.length_pos.mpr h
  rw [releaseScan]
  refine foldl_sel_lt s.length _ ?_ (List.range s.length) ?_ _
    (jsFloorNat_mul_lt s.length 0.4 hn (by norm_num) (by norm_num))
  · intro a b
    by_cases hc : s.getD b 0 > s.getD a 0
    · right; rw [if_pos hc]
    · left; rw [if_neg hc]
  · intro x hx
    exact List.mem_range.mp hx

lemma releaseFrameOf_lt (frames : List FrameSnapshot)
    (h : frames.length ≠ 0) : releaseFrameOf frames < frames.length := by
  have hlen := smoothedSpeedsOf_length frames
  have hne : smoothedSpeedsOf frames ≠ [] := by
    rw [← List.length_pos, hlen]
    omega
  have := releaseScan_lt (smoothedSpeedsOf frames) hne
  rw [hlen] at this
  exact this

lemma releaseFrameOf_le_pitchFrameOf (frames : List FrameSnapshot)
    (h : frames.length ≠ 0) : releaseFrameOf frames ≤ pitchFrameOf frames := by
  have := releaseFrameOf_lt frames h
  exact le_min (by omega) (Nat.le_add_right _ _)

lemma pitchFrameOf_le_impactFrameOf (frames : List FrameSnapshot) :
    pitchFrameOf frames ≤ impactFrameOf frames :=
  le_min (min_le_left _ _) (Nat.le_add_right _ _)

lemma impactFrameOf_le (frames : List FrameSnapshot) :
    impactFrameOf frames ≤ frames.length - 1 :=
  min_le_left _ _

lemma enrichFrames_frames (frames : List FrameSnapshot)
    (h : frames.length ≠ 0) :
    (enrichFrames frames).frames = enrichedFramesOf frames := by
  rw [enrichFrames, if_neg h]

lemma enrichFrames_trajectory (frames : List FrameSnapshot)
    (h : frames.length ≠ 0) :
    (enrichFrames frames).trajectory = depthPositions frames := by
  rw [enrichFrames, if_neg h]

lemma enrichFrames_keyMoments (frames : List FrameSnapshot)
    (h : frames.length ≠ 0) :
    (enrichFrames frames).keyMoments =
      { releaseFrame := releaseFrameOf frames
        pitchFrame := pitchFrameOf frames
        impactFrame := impactFrameOf frames } := by
  rw [enrichFrames, if_neg h]

lemma enrichFrames_summary (frames : List FrameSnapshot)
    (h : frames.length ≠ 0) :
    (enrichFrames frames).summary = summaryOf frames := by
  rw [enrichFrames, if_neg h]

/-! Section: C1: structural invariant -/

/-- Claim C1: the result always satisfies trajectory.length = frames.length;
non-empty input of length N yields exactly N output frames; empty input
yields one frame with all key-moment indices 0; and the key-moment indices
satisfy releaseFrame ≤ pitchFrame ≤ impactFrame ≤ frames.length - 1. -/
theorem enrichFrames_structural (frames : List FrameSnapshot) :
    (enrichFrames frames).trajectory.length =
      (enrichFrames frames).frames.length ∧
    (frames ≠ [] →
      (enrichFrames frames).frames.length = frames.length) ∧
    (frames = [] →
      (enrichFrames frames).frames.length = 1 ∧
      (enrichFrames frames).keyMoments.releaseFrame = 0 ∧
      (enrichFrames frames).keyMoments.pitchFrame = 0 ∧
      (enrichFrames frames).keyMoments.impactFrame = 0) ∧
    (enrichFrames frames).keyMoments.releaseFrame ≤
      (enrichFrames frames).keyMoments.pitchFrame ∧
    (enrichFrames frames).keyMoments.pitchFrame ≤
      (enrichFrames frames).keyMoments.impactFrame ∧
    (enrichFrames frames).keyMoments.impactFrame ≤
      (enrichFrames frames).frames.length - 1 := by
  by_cases h : frames.length = 0
  · have hnil : frames = [] := List.length_eq_zero.mp h
    subst hnil
    exact ⟨rfl, fun hne => absurd rfl hne,
      fun _ => ⟨rfl, rfl, rfl, rfl⟩, le_refl _, le_refl _, by simp [enrichFrames, fallbackResult]⟩
  · have hframes := enrichFrames_frames frames h
    have htraj := enrichFrames_trajectory frames h
    have hkm := enrichFrames_keyMoments frames h
    have hlen : (enrichFrames frames).frames.length = frames.length := by
      rw [hframes, enrichedFramesOf_length]
    refine ⟨?_, fun _ => hlen, fun hnil => absurd (by simp [hnil]) h,
      ?_, ?_, ?_⟩
    · rw [htraj, hlen, depthPositions_length]
    · rw [hkm]
      exact releaseFrameOf_le_pitchFrameOf frames h
    · rw [hkm]
      exact pitchFrameOf_le_impactFrameOf frames
    · rw [hkm, hlen]
      exact impactFrameOf_le frames

/-- Witness for C1 at a concrete input. -/
theorem enrichFrames_structural_witness :
    (enrichFrames [dummyFrame]).frames.length = [dummyFrame].length :=
  (enrichFrames_structural [dummyFrame]).2.1 (by simp)

/-! Section: C2: empty-input fallback -/

/-- Claim C2: empty input yields exactly the fixed fallback record, and
enrichFrames is total (always returns a result). -/
theorem enrichFrames_empty_fallback :
    enrichFrames [] =
      { frames := [{ time := 0
                     phase := FramePhase.runUp
                     ballPosition := (0, 1.5, 0)
                     seamAngle := 15
                     speedKph := 115
                     releaseHeight := 1.86
                     keypoints := [] }]
        trajectory := [(0, 1.5, 0)]
        keyMoments := { releaseFrame := 0, pitchFrame := 0, impactFrame := 0 }
        summary :=
          { releaseSpeedKph := 115
            seamAngle := 15
            releaseHeight := 1.86
            predictedImpactMeters := 5.4
            runupVelocityKph := 24 } } ∧
    ∀ fs : List FrameSnapshot, ∃ r : AnalysisResult, enrichFrames fs = r :=
  ⟨rfl, fun fs => ⟨enrichFrames fs, rfl⟩⟩

/-! Section: C5: depth assignment -/

lemma depthPositions_getD (frames : List FrameSnapshot) (i : ℕ)
    (h : i < frames.length) :
    (depthPositions frames).getD i (0, 0, 0) = positionAt frames i := by
  rw [depthPositions, List.getD_eq_getElem?_getD, List.getElem?_map,
    List.getElem?_range h]
  rfl

lemma depthAt_pos_den (n : ℕ) : (0 : ℝ) < ((max (n - 1) 1 : ℕ) : ℝ) := by
  have : 1 ≤ max (n - 1) 1 := le_max_right _ _
  exact_mod_cast lt_of_lt_of_le Nat.zero_lt_one this

lemma depthAt_mono (n i j : ℕ) (hij : i ≤ j) : depthAt n i ≤ depthAt n j := by
  have hd := depthAt_pos_den n
  have hij2 : (i : ℝ) ≤ (j : ℝ) := by exact_mod_cast hij
  rw [depthAt, depthAt, PITCH_LENGTH_METERS]
  have := (div_le_div_iff_of_pos_right hd).mpr hij2
  nlinarith

lemma depthAt_zero (n : ℕ) : depthAt n 0 = 0 := by
  simp [depthAt]

lemma depthAt_last (n : ℕ) (h : 1 < n) : depthAt n (n - 1) = 20.12 := by
  have hmax : max (n - 1) 1 = n - 1 := by omega
  have hne : ((n - 1 : ℕ) : ℝ) ≠ 0 := by
    have : 0 < n - 1 := by omega
    exact_mod_cast Nat.pos_iff_ne_zero.mp this
  rw [depthAt, hmax, div_self hne, one_mul, PITCH_LENGTH_METERS]

/-- Claim C5: for non-empty input the trajectory depth of frame i is
(i / max(N-1, 1)) * 20.12; the depth sequence is monotonically
non-decreasing in the frame index; depth(0) = 0; and when N > 1 the last
depth is exactly 20.12. -/
theorem depth_assignment_spec (frames : List FrameSnapshot)
    (h : frames ≠ []) :
    (∀ i, i < frames.length →
      ((enrichFrames frames).trajectory.getD i (0, 0, 0)).2.2 =
        ((i : ℝ) / ((max (frames.length - 1) 1 : ℕ) : ℝ)) * 20.12) ∧
    (∀ i j, i ≤ j → j < frames.length →
      ((enrichFrames frames).trajectory.getD i (0, 0, 0)).2.2 ≤
        ((enrichFrames frames).trajectory.getD j (0, 0, 0)).2.2) ∧
    ((enrichFrames frames).trajectory.getD 0 (0, 0, 0)).2.2 = 0 ∧
    (1 < frames.length →
      ((enrichFrames frames).trajectory.getD
        (frames.length - 1) (0, 0, 0)).2.2 = 20.12) := by
  have h0 : frames.length ≠ 0 := by
    simpa [List.length_eq_zero] using h
  have htraj := enrichFrames_trajectory frames h0
  have hdepth : ∀ i, i < frames.length →
      ((enrichFrames frames).trajectory.getD i (0, 0, 0)).2.2 =
        depthAt frames.length i := by
    intro i hi
    rw [htraj, depthPositions_getD frames i hi, positionAt]
  refine ⟨?_, ?_, ?_, ?_⟩
  · intro i hi
    rw [hdepth i hi, depthAt, PITCH_LENGTH_METERS]
  · intro i j hij hj
    rw [hdepth i (lt_of_le_of_lt hij hj), hdepth j hj]
    exact depthAt_mono frames.length i j hij
  · rw [hdepth 0 (by omega), depthAt_zero]
  · intro h1
    rw [hdepth (frames.length - 1) (by omega), depthAt_last frames.length h1]

/-- Witness for C5 at a concrete input. -/
theorem depth_assignment_spec_witness :
    ((enrichFrames [dummyFrame, dummyFrame]).trajectory.getD
      1 (0, 0, 0)).2.2 = 20.12 :=
  (depth_assignment_spec [dummyFrame, dummyFrame] (by simp)).2.2.2
    (by norm_num)

/-! Section: C7: seam estimator -/

/-- Claim C7: if no wrist or no elbow keypoint is selected, or the selected
wrist or elbow lacks an x or y coordinate, computeSeamAngle returns
exactly 12 regardless of the other keypoints; otherwise it returns
atan2(wrist.y - elbow.y, wrist.x - elbow.x) in degrees rounded to one
decimal place. -/
theorem computeSeamAngle_spec (kps : List Keypoint) :
    (seamWrist kps = none → computeSeamAngle kps = 12) ∧
    (seamElbow kps = none → computeSeamAngle kps = 12) ∧
    (∀ w, seamWrist kps = some w → (w.x = none ∨ w.y = none) →
      computeSeamAngle kps = 12) ∧
    (∀ e, seamElbow kps = some e → (e.x = none ∨ e.y = none) →
      computeSeamAngle kps = 12) ∧
    (∀ w e wx wy ex ey, seamWrist kps = some w → seamElbow kps = some e →
      w.x = some wx → w.y = some wy → e.x = some ex → e.y = some ey →
      computeSeamAngle kps =
        (jsRound (atan2 (wy - ey) (wx - ex) * 180 / Real.pi * 10) : ℝ) / 10)
    := by
  refine ⟨?_, ?_, ?_, ?_, ?_⟩
  · intro hw
    simp [computeSeamAngle, hw]
  · intro he
    simp [computeSeamAngle, he]
  · intro w hw hxy
    rcases hxy with hx | hy
    · simp [computeSeamAngle, hw, hx]
    · simp [computeSeamAngle, hw, hy]
  · intro e he hxy
    rcases hxy with hx | hy
    · simp [computeSeamAngle, he, hx]
    · simp [computeSeamAngle, he, hy]
  · intro w e wx wy ex ey hw he hwx hwy hex hey
    simp [computeSeamAngle, hw, he, hwx, hwy, hex, hey]

/-- Witness for C7: a keypoint set with no wrist at all yields 12. -/
theorem computeSeamAngle_spec_witness :
    computeSeamAngle
      [{ name := "nose", x := some 100, y := some 200, score := some 0.9 }]
      = 12 :=
  (computeSeamAngle_spec _).1 rfl

/-! Section: C9: kinematic mapper null-coordinate substitution -/

/-- Claim C9: whenever the selected wrist keypoint lacks an x coordinate the
mapper substitutes width/2, yielding lateral 0; whenever it lacks a y
coordinate the mapper substitutes 0.6*height, yielding vertical 1.04; a
non-empty keypoint set always selects some keypoint; and the mapper always
returns a 3-component position. -/
theorem mapKeypoints_spec (width height : ℝ) (kps : List Keypoint)
    (hw : 0 < width) (hh : 0 < height) :
    (∀ kp, mapWrist kps = some kp → kp.x = none →
      (mapKeypointsToBallPosition width height kps).1 = 0) ∧
    (∀ kp, mapWrist kps = some kp → kp.y = none →
      (mapKeypointsToBallPosition width height kps).2.1 = 1.04) ∧
    (kps ≠ [] → ∃ kp, mapWrist kps = some kp) ∧
    (∃ p : ℝ × ℝ × ℝ, mapKeypointsToBallPosition width height kps = p) := by
  refine ⟨?_, ?_, ?_, ⟨_, rfl⟩⟩
  · intro kp hkp hx
    rw [mapKeypointsToBallPosition, hkp]
    simp only [hx, Option.getD_none]
    have hwne : width ≠ 0 := ne_of_gt hw
    field_simp
    ring
  · intro kp hkp hy
    rw [mapKeypointsToBallPosition, hkp]
    simp only [hy, Option.getD_none]
    have hhne : height ≠ 0 := ne_of_gt hh
    have hq : height * 0.6 / height = 0.6 :=
      mul_div_cancel_left₀ (0.6 : ℝ) hhne
    rw [hq]
    rw [max_eq_right (by norm_num : (0.4 : ℝ) ≤ (1 - 0.6) * 2.6)]
    norm_num
  · intro hne
    rcases ho : mapWrist kps with _ | kp
    · exfalso
      rw [mapWrist, Option.orElse_eq_none', Option.orElse_eq_none'] at ho
      exact hne (List.head?_eq_none_iff.mp ho.2)
    · exact ⟨kp, rfl⟩

/-- Witness for C9 at a concrete input: a single coordinate-free keypoint
in a 1280x720 frame maps to lateral 0 and vertical 1.04. -/
theorem mapKeypoints_spec_witness :
    (mapKeypointsToBallPosition 1280 720 [mysteryKp]).1 = 0 ∧
    (mapKeypointsToBallPosition 1280 720 [mysteryKp]).2.1 = 1.04 :=
  ⟨(mapKeypoints_spec 1280 720 [mysteryKp] (by norm_num) (by norm_num)).1
      mysteryKp rfl rfl,
    (mapKeypoints_spec 1280 720 [mysteryKp] (by norm_num) (by norm_num)).2.1
      mysteryKp rfl rfl⟩

/-- Claim C8: the pipeline is deterministic — equal input sequences produce
identical results; the output depends only on the input sequence. -/
theorem enrichFrames_deterministic (a b : List FrameSnapshot) (h : a = b) :
    enrichFrames a = enrichFrames b := by rw [h]

/-- Witness for C8 at a concrete input. -/
theorem enrichFrames_deterministic_witness :
    enrichFrames [dummyFrame] = enrichFrames [dummyFrame] :=
  enrichFrames_deterministic [dummyFrame] [dummyFrame] rfl

/-! Section: C3: uniform frames with identical positions -/

lemma uniformFrames_length : uniformFrames.length = 10 := by
  simp [uniformFrames]

lemma uniformFrames_getD (i : ℕ) (h : i < 10) :
    uniformFrames.getD i dummyFrame = uniformFrame ((i : ℝ) / 10) := by
  rw [uniformFrames, List.getD_eq_getElem?_getD, List.getElem?_map,
    List.getElem?_range h]
  rfl

lemma jsRound_sqrt_eval (A z dt c v : ℝ) (hA : A = z * z) (hz : 0 ≤ z)
    (hv : ((⌊z / dt * c + 1 / 2⌋ : ℤ) : ℝ) = v) :
    (jsRound (Real.sqrt A / dt * c) : ℝ) = v := by
  rw [hA, Real.sqrt_mul_self hz, jsRound]
  exact hv

lemma max_nine : ((max (10 - 1) 1 : ℕ) : ℝ) = 9 := by
  have h : (max (10 - 1) 1 : ℕ) = 9 := by decide
  rw [h]
  norm_num

lemma max_four : ((max (5 - 1) 1 : ℕ) : ℝ) = 4 := by
  have h : (max (5 - 1) 1 : ℕ) = 4 := by decide
  rw [h]
  norm_num

lemma speedAt_uniform_zero : speedAt uniformFrames 0 = 0 := by
  rw [speedAt, if_pos rfl]

lemma speedAt_uniform (i : ℕ) (h1 : 1 ≤ i) (h9 : i ≤ 9) :
    speedAt uniformFrames i = 80 := by
  have hi0 : i ≠ 0 := by omega
  have hgi := uniformFrames_getD i (by omega)
  have hgp := uniformFrames_getD (i - 1) (by omega)
  have hc : ((i - 1 : ℕ) : ℝ) = (i : ℝ) - 1 := by
    push_cast [h1]
    ring
  rw [speedAt, if_neg hi0, positionAt, positionAt, uniformFrames_length,
    hgi, hgp, depthAt, depthAt, PITCH_LENGTH_METERS, max_nine, hc]
  simp only [uniformFrame]
  rw [show ((i : ℝ) / 10 - ((i : ℝ) - 1) / 10) = 1 / 10 by ring]
  rw [if_neg (by norm_num : ¬(1 / 10 : ℝ) = 0)]
  refine jsRound_sqrt_eval _ (503 / 225) _ _ _ ?_ (by norm_num) ?_
  · ring
  · norm_num

lemma uniformFrames_rawSpeeds :
    rawSpeeds uniformFrames = [0, 80, 80, 80, 80, 80, 80, 80, 80, 80] := by
  rw [rawSpeeds, uniformFrames_length]
  rw [show List.range 10 = [0, 1, 2, 3, 4, 5, 6, 7, 8, 9] from rfl]
  simp only [List.map_cons, List.map_nil]
  rw [speedAt_uniform_zero,
    speedAt_uniform 1 (by norm_num) (by norm_num),
    speedAt_uniform 2 (by norm_num) (by norm_num),
    speedAt_uniform 3 (by norm_num) (by norm_num),
    speedAt_uniform 4 (by norm_num) (by norm_num),
    speedAt_uniform 5 (by norm_num) (by norm_num),
    speedAt_uniform 6 (by norm_num) (by norm_num),
    speedAt_uniform 7 (by norm_num) (by norm_num),
    speedAt_uniform 8 (by norm_num) (by norm_num),
    speedAt_uniform 9 (by norm_num) (by norm_num)]

lemma uniformFrames_smoothed :
    smoothedSpeedsOf uniformFrames =
      [0, 28, 46.2, 58.03, 65.7195, 70.717675, 73.96648875, 76.0782176875,
        77.450841496875, 78.34304697296875] := by
  rw [smoothedSpeedsOf, uniformFrames_rawSpeeds]
  norm_num [smoothSeries, smoothFrom]

lemma jsFloorNat_ten : jsFloorNat ((10 : ℝ) * 0.4) = 4 := by
  have h : ⌊(10 : ℝ) * 0.4⌋ = 4 := by norm_num
  rw [jsFloorNat, h]
  rfl

lemma releaseScan_uniform :
    releaseScan (smoothedSpeedsOf uniformFrames) = 9 := by
  rw [uniformFrames_smoothed, releaseScan]
  rw [show ([0, 28, 46.2, 58.03, 65.7195, 70.717675, 73.96648875,
    76.0782176875, 77.450841496875, 78.34304697296875] : List ℝ).length = 10
    from rfl]
  rw [show List.range 10 = [0, 1, 2, 3, 4, 5, 6, 7, 8, 9] from rfl]
  rw [Nat.cast_ofNat, jsFloorNat_ten]
  norm_num [List.foldl, List.getD]

lemma uniform_release :
    (enrichFrames uniformFrames).keyMoments.releaseFrame = 9 := by
  have h : uniformFrames.length ≠ 0 := by
    rw [uniformFrames_length]
    norm_num
  rw [enrichFrames_keyMoments uniformFrames h]
  show releaseFrameOf uniformFrames = 9
  rw [releaseFrameOf, releaseScan_uniform]

/-- Claim C3 counterexample: on ten frames with identical raw ball positions and
strictly increasing timestamps 0.0 s .. 0.9 s, the computed speed at frame
1 is 80 km/h, not 0, and the detected release frame is 9, not
floor(10*0.4) = 4: depth assignment precedes the speed computation, so
consecutive positions always differ along the pitch. -/
theorem uniform_frames_cex :
    speedAt uniformFrames 1 = 80 ∧ (80 : ℝ) ≠ 0 ∧
    (enrichFrames uniformFrames).keyMoments.releaseFrame = 9 ∧ 9 ≠ 4 :=
  ⟨speedAt_uniform 1 (by norm_num) (by norm_num), by norm_num,
    uniform_release, by norm_num⟩

/-- Claim C3 amended: on ten frames with identical raw ball positions and
strictly increasing timestamps 0.0 s .. 0.9 s, the raw speed sequence is 0
followed by nine 80 km/h entries (the assigned depth advances 20.12/9 m
per 0.1 s step), and the detected release frame is 9. -/
theorem uniform_frames_amended :
    rawSpeeds uniformFrames = [0, 80, 80, 80, 80, 80, 80, 80, 80, 80] ∧
    (enrichFrames uniformFrames).keyMoments.releaseFrame = 9 :=
  ⟨uniformFrames_rawSpeeds, uniform_release⟩

/-! Section: C10: release scan can move before the seed index -/

lemma speedAt_burst_1 : speedAt earlyBurstFrames 1 = 1811 := by
  rw [speedAt, if_neg (by norm_num), positionAt, positionAt]
  rw [show earlyBurstFrames.length = 5 from rfl]
  rw [show earlyBurstFrames.getD 1 dummyFrame = uniformFrame 0.01 from rfl]
  rw [show earlyBurstFrames.getD (1 - 1) dummyFrame = uniformFrame 0
    from rfl]
  rw [depthAt, depthAt, PITCH_LENGTH_METERS, max_four]
  simp only [uniformFrame]
  rw [show ((0.01 : ℝ) - 0) = 1 / 100 by norm_num]
  rw [if_neg (by norm_num : ¬(1 / 100 : ℝ) = 0)]
  refine jsRound_sqrt_eval _ (503 / 100) _ _ _ ?_ (by norm_num) ?_
  · norm_num
  · norm_num

lemma speedAt_burst_2 : speedAt earlyBurstFrames 2 = 18 := by
  rw [speedAt, if_neg (by norm_num), positionAt, positionAt]
  rw [show earlyBurstFrames.length = 5 from rfl]
  rw [show earlyBurstFrames.getD 2 dummyFrame = uniformFrame 1.01 from rfl]
  rw [show earlyBurstFrames.getD (2 - 1) dummyFrame = uniformFrame 0.01
    from rfl]
  rw [depthAt, depthAt, PITCH_LENGTH_METERS, max_four]
  simp only [uniformFrame]
  rw [show ((1.01 : ℝ) - 0.01) = 1 by norm_num]
  rw [if_neg (by norm_num : ¬(1 : ℝ) = 0)]
  refine jsRound_sqrt_eval _ (503 / 100) _ _ _ ?_ (by norm_num) ?_
  · norm_num
  · norm_num

lemma speedAt_burst_3 : speedAt earlyBurstFrames 3 = 18 := by
  rw [speedAt, if_neg (by norm_num), positionAt, positionAt]
  rw [show earlyBurstFrames.length = 5 from rfl]
  rw [show earlyBurstFrames.getD 3 dummyFrame = uniformFrame 2.01 from rfl]
  rw [show earlyBurstFrames.getD (3 - 1) dummyFrame = uniformFrame 1.01
    from rfl]
  rw [depthAt, depthAt, PITCH_LENGTH_METERS, max_four]
  simp only [uniformFrame]
  rw [show ((2.01 : ℝ) - 1.01) = 1 by norm_num]
  rw [if_neg (by norm_num : ¬(1 : ℝ) = 0)]
  refine jsRound_sqrt_eval _ (503 / 100) _ _ _ ?_ (by norm_num) ?_
  · norm_num
  · norm_num

lemma speedAt_burst_4 : speedAt earlyBurstFrames 4 = 18 := by
  rw [speedAt, if_neg (by norm_num), positionAt, positionAt]
  rw [show earlyBurstFrames.length = 5 from rfl]
  rw [show earlyBurstFrames.getD 4 dummyFrame = uniformFrame 3.01 from rfl]
  rw [show earlyBurstFrames.getD (4 - 1) dummyFrame = uniformFrame 2.01
    from rfl]
  rw [depthAt, depthAt, PITCH_LENGTH_METERS, max_four]
  simp only [uniformFrame]
  rw [show ((3.01 : ℝ) - 2.01) = 1 by norm_num]
  rw [if_neg (by norm_num : ¬(1 : ℝ) = 0)]
  refine jsRound_sqrt_eval _ (503 / 100) _ _ _ ?_ (by norm_num) ?_
  · norm_num
  · norm_num

lemma burstFrames_rawSpeeds :
    rawSpeeds earlyBurstFrames = [0, 1811, 18, 18, 18] := by
  rw [rawSpeeds, show earlyBurstFrames.length = 5 from rfl]
  rw [show List.range 5 = [0, 1, 2, 3, 4] from rfl]
  simp only [List.map_cons, List.map_nil]
  rw [show speedAt earlyBurstFrames 0 = 0 from by rw [speedAt, if_pos rfl],
    speedAt_burst_1, speedAt_burst_2, speedAt_burst_3, speedAt_burst_4]

lemma burstFrames_smoothed :
    smoothedSpeedsOf earlyBurstFrames =
      [0, 633.85, 418.3025, 278.196625, 187.12780625] := by
  rw [smoothedSpeedsOf, burstFrames_rawSpeeds]
  norm_num [smoothSeries, smoothFrom]

lemma jsFloorNat_five : jsFloorNat ((5 : ℝ) * 0.4) = 2 := by
  have h : ⌊(5 : ℝ) * 0.4⌋ = 2 := by norm_num
  rw [jsFloorNat, h]
  rfl

lemma releaseScan_burst :
    releaseScan (smoothedSpeedsOf earlyBurstFrames) = 1 := by
  rw [burstFrames_smoothed, releaseScan]
  rw [show ([0, 633.85, 418.3025, 278.196625, 187.12780625] :
    List ℝ).length = 5 from rfl]
  rw [show List.range 5 = [0, 1, 2, 3, 4] from rfl]
  rw [Nat.cast_ofNat, jsFloorNat_five]
  norm_num [List.foldl, List.getD]

/-- Claim C10: the release scan folds from index 0 with floor(N*0.4) only as the
seed: on the burst input the detected release frame is 1, strictly less
than the seed floor(5*0.4) = 2, so the start bias is not a lower bound. -/
theorem release_scan_before_seed :
    (enrichFrames earlyBurstFrames).keyMoments.releaseFrame = 1 ∧
    1 < jsFloorNat ((earlyBurstFrames.length : ℝ) * 0.4) := by
  constructor
  · have h : earlyBurstFrames.length ≠ 0 := by
      rw [show earlyBurstFrames.length = 5 from rfl]
      norm_num
    rw [enrichFrames_keyMoments earlyBurstFrames h]
    show releaseFrameOf earlyBurstFrames = 1
    rw [releaseFrameOf, releaseScan_burst]
  · rw [show earlyBurstFrames.length = 5 from rfl, Nat.cast_ofNat,
      jsFloorNat_five]
    norm_num

/-! Section: C4: summary defaults -/

/-- Claim C4 amended: the releaseSpeedKph, runupVelocityKph, and seamAngle
defaults (122, 22, 14) apply exactly when the respective smoothed value is
0; releaseHeight always equals the release-height field of the
release-frame snapshot (the release index is always valid, so the 1.85
default is unreachable and a zero release height is NOT replaced); and
predictedImpactMeters = max(0, 20.12 - depth at the impact frame). -/
theorem summary_defaults (frames : List FrameSnapshot) (h : frames ≠ []) :
    ((smoothedSpeedsOf frames).getD (releaseFrameOf frames) 0 = 0 →
      (enrichFrames frames).summary.releaseSpeedKph = 122) ∧
    ((smoothedSpeedsOf frames).getD (releaseFrameOf frames) 0 ≠ 0 →
      (enrichFrames frames).summary.releaseSpeedKph =
        (smoothedSpeedsOf frames).getD (releaseFrameOf frames) 0) ∧
    ((smoothedSpeedsOf frames).getD
        (jsFloorNat ((releaseFrameOf frames : ℝ) * 0.5)) 0 = 0 →
      (enrichFrames frames).summary.runupVelocityKph = 22) ∧
    ((smoothedSpeedsOf frames).getD
        (jsFloorNat ((releaseFrameOf frames : ℝ) * 0.5)) 0 ≠ 0 →
      (enrichFrames frames).summary.runupVelocityKph =
        (smoothedSpeedsOf frames).getD
          (jsFloorNat ((releaseFrameOf frames : ℝ) * 0.5)) 0) ∧
    ((seamAnglesOf frames).getD (releaseFrameOf frames) 0 = 0 →
      (enrichFrames frames).summary.seamAngle = 14) ∧
    ((seamAnglesOf frames).getD (releaseFrameOf frames) 0 ≠ 0 →
      (enrichFrames frames).summary.seamAngle =
        (seamAnglesOf frames).getD (releaseFrameOf frames) 0) ∧
    ((enrichFrames frames).summary.releaseHeight =
      (frames.getD (releaseFrameOf frames) dummyFrame).ballPosition.2.1) ∧
    ((enrichFrames frames).summary.predictedImpactMeters =
      max 0 (20.12 - depthAt frames.length (impactFrameOf frames))) := by
  have h0 : frames.length ≠ 0 := by
    simpa [List.length_eq_zero] using h
  have hsum := enrichFrames_summary frames h0
  have hrf := releaseFrameOf_lt frames h0
  refine ⟨?_, ?_, ?_, ?_, ?_, ?_, ?_, ?_⟩
  · intro hz
    rw [hsum]
    simp only [summaryOf]
    rw [if_pos hz]
  · intro hz
    rw [hsum]
    simp only [summaryOf]
    rw [if_neg hz]
  · intro hz
    rw [hsum]
    simp only [summaryOf]
    rw [if_pos hz]
  · intro hz
    rw [hsum]
    simp only [summaryOf]
    rw [if_neg hz]
  · intro hz
    rw [hsum]
    simp only [summaryOf]
    rw [if_pos hz]
  · intro hz
    rw [hsum]
    simp only [summaryOf]
    rw [if_neg hz]
  · rw [hsum]
    simp only [summaryOf]
    rw [enrichedFramesOf, List.getElem?_map, List.getElem?_range hrf]
    simp
  · rw [hsum]
    simp only [summaryOf]
    have himp : impactFrameOf frames < frames.length := by
      have := impactFrameOf_le frames
      omega
    rw [depthPositions_getD frames (impactFrameOf frames) himp, positionAt,
      PITCH_LENGTH_METERS]

lemma smoothed_dummy : smoothedSpeedsOf [dummyFrame] = [0] := by
  rw [smoothedSpeedsOf, rawSpeeds,
    show ([dummyFrame] : List FrameSnapshot).length = 1 from rfl,
    show List.range 1 = [0] from rfl]
  simp only [List.map_cons, List.map_nil]
  rw [show speedAt [dummyFrame] 0 = 0 from by rw [speedAt, if_pos rfl]]
  simp [smoothSeries, smoothFrom]

lemma jsFloorNat_one : jsFloorNat ((1 : ℝ) * 0.4) = 0 := by
  have h : ⌊(1 : ℝ) * 0.4⌋ = 0 := by norm_num
  rw [jsFloorNat, h]
  rfl

lemma releaseFrameOf_dummy : releaseFrameOf [dummyFrame] = 0 := by
  rw [releaseFrameOf, smoothed_dummy, releaseScan,
    show ([0] : List ℝ).length = 1 from rfl,
    show List.range 1 = [0] from rfl, Nat.cast_one, jsFloorNat_one]
  norm_num [List.foldl, List.getD]

/-- Claim C4 counterexample: a single frame whose raw vertical ball position is
0 yields a release-frame snapshot with release-height field 0, and the
summary reports releaseHeight 0 rather than the 1.85 default the claim
requires for a zero value (the code uses a nullish check, not a
falsy check, for this one field). -/
theorem summary_release_height_cex :
    ([dummyFrame].getD (releaseFrameOf [dummyFrame])
      dummyFrame).ballPosition.2.1 = 0 ∧
    (enrichFrames [dummyFrame]).summary.releaseHeight = 0 ∧
    ((0 : ℝ) ≠ 1.85) := by
  refine ⟨by rw [releaseFrameOf_dummy]; simp [dummyFrame], ?_, by norm_num⟩
  have h0 : ([dummyFrame] : List FrameSnapshot).length ≠ 0 := by
    norm_num
  rw [enrichFrames_summary [dummyFrame] h0]
  simp only [summaryOf]
  rw [releaseFrameOf_dummy, enrichedFramesOf,
    show ([dummyFrame] : List FrameSnapshot).length = 1 from rfl,
    show List.range 1 = [0] from rfl]
  simp [dummyFrame]

/-- Witness for C4 at a concrete input: on a single all-zero frame the
release-speed default 122 fires while releaseHeight stays 0. -/
theorem summary_defaults_witness :
    (enrichFrames [dummyFrame]).summary.releaseSpeedKph = 122 ∧
    (enrichFrames [dummyFrame]).summary.releaseHeight =
      ([dummyFrame].getD (releaseFrameOf [dummyFrame])
        dummyFrame).ballPosition.2.1 :=
  ⟨(summary_defaults [dummyFrame] (by simp)).1
      (by rw [smoothed_dummy, releaseFrameOf_dummy]; rfl),
    (summary_defaults [dummyFrame] (by simp)).2.2.2.2.2.2.1⟩

end HawkEye
